import Mathlib

/-!
Verification of the combined-answer consolidation subsystem and the
client-side offline cache/sync engine of the CBT exam platform.

The backend functions `initJawabanGabungan` and `updateJawabanGabungan`
are embedded as pure functions over an explicit database state `Db`
(the Supabase tables the code reads and writes).  The client cache
manager is embedded as pure functions over a `CMState` record holding
the memory map, localStorage, IndexedDB stores and the sync queue,
with network effects made explicit through oracle parameters.
-/

/-! ## Generic helpers: JS string split, stable sort, assoc-list maps -/

/-- Splits a character list at each occurrence of the separator character,
with the semantics of JavaScript String.prototype.split for a
single-character separator. -/
def splitChars (sep : Char) : List Char → List (List Char)
  | [] => [[]]
  | c :: rest =>
    match splitChars sep rest with
    | [] => [[]]
    | t :: ts => if c = sep then [] :: t :: ts else (c :: t) :: ts

/-- JavaScript s.split(sep) for a single-character separator. -/
def jsSplit (s : String) (sep : Char) : List String :=
  (splitChars sep s.toList).map (fun cs => String.mk cs)

/-- Stable insertion into a list sorted by `le`. -/
def sortedInsert (le : α → α → Bool) (a : α) : List α → List α
  | [] => [a]
  | b :: l => if le a b then a :: b :: l else b :: sortedInsert le a l

/-- Stable insertion sort; models the deterministic `ORDER BY` of the
PostgREST queries the code issues. -/
def insertionSort (le : α → α → Bool) : List α → List α
  | [] => []
  | a :: l => sortedInsert le a (insertionSort le l)

/-- JavaScript Map.prototype.set on an association list: replaces the
value under an existing key, otherwise appends a new binding. -/
def alSet [BEq κ] (k : κ) (v : α) (m : List (κ × α)) : List (κ × α) :=
  if m.any (fun p => p.1 == k) then
    m.map (fun p => if p.1 == k then (k, v) else p)
  else
    m ++ [(k, v)]

/-- JavaScript Map.prototype.get on an association list. -/
def alGet [BEq κ] (k : κ) (m : List (κ × α)) : Option α :=
  (m.find? (fun p => p.1 == k)).map (fun p => p.2)

/-! ## Server-side data model (Supabase tables) -/

/-- A row of `mata_pelajaran` (Subject). -/
structure Mapel where
  id : Nat
  id_agenda : Nat
  status_mapel : String
  nama_mata_pelajaran : String
deriving DecidableEq, Repr

/-- A row of `bank_soal` (Question). -/
structure Soal where
  id : Nat
  id_mapel : Nat
  no_soal : Nat
deriving DecidableEq, Repr

/-- A row of `soal_mapping_gabungan` (SoalMapping).  `no_urut_gabungan`
is an `Int` because the JavaScript code computes `no_urut_gabungan - 1`
and explicitly guards `index >= 0`. -/
structure MappingRow where
  id_agenda : Nat
  id_mapel : Nat
  id_soal : Nat
  no_soal_mapel : Nat
  no_urut_gabungan : Int
deriving DecidableEq, Repr

/-- A row of `jawaban_gabungan` (CombinedAnswer). -/
structure JGRow where
  id_peserta : Nat
  id_agenda : Nat
  jawaban : String
  total_soal : Nat
  tgljam_update : String
deriving DecidableEq, Repr

/-- The database state the consolidation functions read and write. -/
structure Db where
  mata_pelajaran : List Mapel
  bank_soal : List Soal
  soal_mapping_gabungan : List MappingRow
  jawaban_gabungan : List JGRow
deriving DecidableEq, Repr

/-- Query: ready subjects of an agenda, ordered by ascending id
(`id_agenda=eq.aid`, `status_mapel=eq.Siap`, `order=id.asc`). -/
def getMapelList (db : Db) (aid : Nat) : List Mapel :=
  insertionSort (fun a b => decide (a.id ≤ b.id))
    (db.mata_pelajaran.filter (fun m => m.id_agenda == aid && m.status_mapel == "Siap"))

/-- Query: questions of a subject ordered by ascending `no_soal`
(`id_mapel=eq.mid`, `order=no_soal.asc`, `limit=500`). -/
def getSoalList (db : Db) (mid : Nat) : List Soal :=
  (insertionSort (fun a b => decide (a.no_soal ≤ b.no_soal))
    (db.bank_soal.filter (fun s => s.id_mapel == mid))).take 500

/-- Query: mapping rows of (agenda, subject) ordered by ascending
`no_urut_gabungan`. -/
def getMappingList (db : Db) (aid mid : Nat) : List MappingRow :=
  insertionSort (fun a b => decide (a.no_urut_gabungan ≤ b.no_urut_gabungan))
    (db.soal_mapping_gabungan.filter (fun r => r.id_agenda == aid && r.id_mapel == mid))

/-- The mapping row pushed for one question when the running total so
far is `n`: `no_urut_gabungan := totalSoal + 1`, and `soal.no_soal || 1`
for the subject-local number. -/
def mkMappingRow (aid mid : Nat) (soal : Soal) (n : Nat) : MappingRow :=
  { id_agenda := aid, id_mapel := mid, id_soal := soal.id,
    no_soal_mapel := if soal.no_soal = 0 then 1 else soal.no_soal,
    no_urut_gabungan := (n + 1 : Int) }

/-- The inner loop of `initJawabanGabungan`: push one mapping row per
question of one subject, incrementing the running total. -/
def soalFold (aid mid : Nat) (soalList : List Soal) (acc : List MappingRow × Nat) :
    List MappingRow × Nat :=
  soalList.foldl (fun acc2 soal => (acc2.1 ++ [mkMappingRow aid mid soal acc2.2], acc2.2 + 1)) acc

/-- The fresh global-sequence assignment `initJawabanGabungan` computes
(steps 1-2): iterate ready subjects by ascending id, questions by
ascending `no_soal`, numbering `no_urut_gabungan` from 1.  Returns the
mapping rows and the running total `totalSoal`. -/
def computeMappings (db : Db) (aid : Nat) : List MappingRow × Nat :=
  (getMapelList db aid).foldl
    (fun acc mapel => soalFold aid mapel.id (getSoalList db mapel.id) acc)
    ([], 0)

/-- Result record of `initJawabanGabungan`. -/
structure InitResult where
  success : Bool
  total_soal : Nat
  jawaban_awal : String
deriving DecidableEq, Repr

/-- Step 3 of `initJawabanGabungan`: store the freshly computed mapping
rows, but only when the agenda has no mapping rows yet (the code checks
`soal_mapping_gabungan` for `id_agenda = aid, limit 1` and skips the
insert on a hit; it never deletes). -/
def initMappingStep (aid : Nat) (db : Db) : Db :=
  let soalMappings := (computeMappings db aid).1
  if soalMappings.isEmpty then db
  else if (db.soal_mapping_gabungan.filter (fun r => r.id_agenda == aid)).isEmpty then
    { db with soal_mapping_gabungan := db.soal_mapping_gabungan ++ soalMappings }
  else db

/-- Step 4 of `initJawabanGabungan`: insert the all-dash combined-answer
row for (participant, agenda) when none exists. -/
def initJGStep (pid aid : Nat) (now jawabanAwal : String) (totalSoal : Nat) (db : Db) : Db :=
  if (db.jawaban_gabungan.filter (fun j => j.id_peserta == pid && j.id_agenda == aid)).isEmpty then
    { db with jawaban_gabungan := db.jawaban_gabungan ++
        [{ id_peserta := pid, id_agenda := aid, jawaban := jawabanAwal,
           total_soal := totalSoal, tgljam_update := now }] }
  else db

/-- `initJawabanGabungan(pid, aid)`: computes the fresh mapping, stores
it only when the agenda has no mapping rows yet, and inserts an all-dash
combined-answer row for the participant when none exists.  `now` stands
for `new Date().toISOString()`. -/
def initJawabanGabungan (pid aid : Nat) (now : String) (db : Db) : InitResult × Db :=
  let mapelList := getMapelList db aid
  if mapelList.isEmpty then
    ({ success := false, total_soal := 0, jawaban_awal := "" }, db)
  else
    let totalSoal := (computeMappings db aid).2
    let jawabanAwal := String.intercalate "|" (List.replicate totalSoal "-")
    ({ success := true, total_soal := totalSoal, jawaban_awal := jawabanAwal },
     initJGStep pid aid now jawabanAwal totalSoal (initMappingStep aid db))

/-- Step 4 of `updateJawabanGabungan`: walk the subject's questions in
order; the i-th question takes the i-th `|`-token (or `-` past the end),
looks up its mapping row by question id, and overwrites the combined
token at `no_urut_gabungan - 1` when that index is in bounds. -/
def updateLoop (mappingList : List MappingRow) :
    List Soal → List String → List String → List String
  | [], _, jawabanGabunganArray => jawabanGabunganArray
  | soal :: rest, jawabanArray, jawabanGabunganArray =>
    let jawaban := jawabanArray.headD "-"
    let arr :=
      match mappingList.find? (fun m => m.id_soal == soal.id) with
      | some mapping =>
        let index : Int := mapping.no_urut_gabungan - 1
        if 0 ≤ index ∧ index < (jawabanGabunganArray.length : Int) then
          jawabanGabunganArray.set index.toNat jawaban
        else jawabanGabunganArray
      | none => jawabanGabunganArray
    updateLoop mappingList rest jawabanArray.tail arr

/-- `updateJawabanGabungan(pid, aid, mid, jawabanMapelString)` from the
primary backend implementation.  The two `init … then refetch` recovery
branches re-assign a `const` binding in the source
(`mappingList = mappingListNew;` and `jawabanGabungan = jawabanGabunganNew;`),
which raises a TypeError at run time; the surrounding try/catch turns
that into a `false` return, so both branches are modelled as returning
`false` with the state the inner `initJawabanGabungan` produced. -/
def updateJawabanGabungan (pid aid mid : Nat) (jawabanMapelString : String)
    (now : String) (db : Db) : Bool × Db :=
  let soalList := getSoalList db mid
  if soalList.isEmpty then (false, db)
  else
    let jawabanArray := jsSplit jawabanMapelString '|'
    let mappingList := getMappingList db aid mid
    if mappingList.isEmpty then
      let r1 := initJawabanGabungan pid aid now db
      if !r1.1.success then (false, r1.2)
      else
        let mappingListNew := getMappingList r1.2 aid mid
        if mappingListNew.isEmpty then (false, r1.2)
        else (false, r1.2)
    else
      let jawabanGabungan :=
        ((db.jawaban_gabungan.filter (fun j => j.id_peserta == pid && j.id_agenda == aid)).take 1)
      match jawabanGabungan.head? with
      | none =>
        let r2 := initJawabanGabungan pid aid now db
        if !r2.1.success then (false, r2.2)
        else
          let jgNew :=
            ((r2.2.jawaban_gabungan.filter (fun j => j.id_peserta == pid && j.id_agenda == aid)).take 1)
          if jgNew.isEmpty then (false, r2.2)
          else (false, r2.2)
      | some jawabanGabunganData =>
        let jawabanGabunganArray := jsSplit jawabanGabunganData.jawaban '|'
        let arr := updateLoop mappingList soalList jawabanArray jawabanGabunganArray
        let jawabanGabunganString := String.intercalate "|" arr
        let db2 := { db with jawaban_gabungan := db.jawaban_gabungan.map (fun j =>
          if j.id_peserta == pid && j.id_agenda == aid then
            { j with jawaban := jawabanGabunganString, tgljam_update := now }
          else j) }
        (true, db2)

/-! ## Client-side cache manager model (cache-manager.js, api-wrapper) -/

/-- The two mutation kinds ever placed on the sync queue. -/
inductive QType
  | save_jawaban
  | finish_exam
deriving DecidableEq, Repr

/-- The answer payload a save carries; `syncJawaban` reads its
`jawabanString` field when building the request body. -/
structure Payload where
  jawabanString : String
deriving DecidableEq, Repr

/-- A row of the `syncQueue` IndexedDB store (auto-increment `id`,
indexed by `timestamp`). -/
structure QEntry where
  id : Nat
  qtype : QType
  mapelId : Nat
  payload : Payload
  timestamp : Nat
  attempts : Nat
deriving DecidableEq, Repr

/-- Outcome of one network delivery attempt: HTTP success with
`success: true`, HTTP success with `success: false`, or a rejected
fetch (network error / offline). -/
inductive NetOutcome
  | ok
  | serverFail
  | netError
deriving DecidableEq, Repr

/-- A cached `get-soal` response; `data_soal` is the question set. -/
structure SoalData where
  success : Bool
  data_soal : List String
deriving DecidableEq, Repr

/-- A row of the `jawaban` IndexedDB store (keyPath `id`, indexed by
`mapelId`). -/
structure JRecord where
  id : String
  mapelId : Nat
  jawabanData : Payload
  timestamp : Nat
  synced : Bool
deriving DecidableEq, Repr

/-- One outbound network request issued by the sync engine. -/
structure SentReq where
  qtype : QType
  mapelId : Nat
  jawabanString : String
deriving DecidableEq, Repr

/-- Client-side state: the memory-tier maps, the localStorage entries,
the IndexedDB stores, the sync queue (with its auto-increment counter),
the log of outbound delivery attempts, and the connectivity/user flags. -/
structure CMState where
  soalMem : List (Nat × SoalData)
  lsSoal : List (Nat × SoalData)
  idbSoal : List (Nat × SoalData)
  jawabanMem : List (Nat × JRecord)
  lsJawaban : List (Nat × Payload)
  idbJawaban : List JRecord
  syncQueue : List QEntry
  nextQId : Nat
  sent : List SentReq
  user : Option Nat
  isOnline : Bool
deriving DecidableEq, Repr

/-- Which cache tier answered a `getSoal` read. -/
inductive Source
  | memory
  | localStorage
  | indexedDB
deriving DecidableEq, Repr

/-- CacheManager.getSoal: consult memory, then localStorage, then
IndexedDB, populating the memory tier on a hit from a slower tier;
`none` when every tier misses. -/
def cmGetSoal (st : CMState) (mapelId : Nat) : Option (SoalData × Source) × CMState :=
  match alGet mapelId st.soalMem with
  | some d => (some (d, Source.memory), st)
  | none =>
    match alGet mapelId st.lsSoal with
    | some d => (some (d, Source.localStorage), { st with soalMem := alSet mapelId d st.soalMem })
    | none =>
      match alGet mapelId st.idbSoal with
      | some d => (some (d, Source.indexedDB), { st with soalMem := alSet mapelId d st.soalMem })
      | none => (none, st)

/-- CacheFirstAPI.getSoal with `forceRefresh = false`.  `net` is the
server's response (`none` models a rejected fetch).  Returns the result
(the response data with its `fromCache` flag), whether a network request
was made, and the new client state.  On a successful fetch the data is
written to all three tiers, exactly as the source does. -/
def apiGetSoal (net : Option SoalData) (st : CMState) (mapelId : Nat) :
    Option (SoalData × Bool) × Bool × CMState :=
  match cmGetSoal st mapelId with
  | (some (d, _src), st1) => (some (d, true), false, st1)
  | (none, st1) =>
    match st1.user with
    | none => (none, false, st1)
    | some _ =>
      match net with
      | some data =>
        if data.success then
          (some (data, false), true,
            { st1 with soalMem := alSet mapelId data st1.soalMem,
                       lsSoal := alSet mapelId data st1.lsSoal,
                       idbSoal := alSet mapelId data st1.idbSoal })
        else (some (data, false), true, st1)
      | none => (none, true, st1)

/-- CacheManager.addToSyncQueue: durably append a queue entry with the
current timestamp, `attempts := 0`, and the auto-increment key. -/
def addToSyncQueue (now : Nat) (st : CMState) (qtype : QType) (mapelId : Nat)
    (payload : Payload) : CMState :=
  { st with
    syncQueue := st.syncQueue ++
      [{ id := st.nextQId, qtype := qtype, mapelId := mapelId, payload := payload,
         timestamp := now, attempts := 0 }],
    nextQId := st.nextQId + 1 }

/-- CacheManager.syncJawaban: returns `false` without any network
attempt when offline or logged out; otherwise performs the
`save-jawaban` request and reports the server's `success` flag, turning
every error into `false` (it never throws). -/
def syncJawaban (net : NetOutcome) (st : CMState) (mapelId : Nat) (jawabanData : Payload) :
    Bool × CMState :=
  if !st.isOnline || st.user.isNone then (false, st)
  else
    let st1 := { st with sent := st.sent ++
      [{ qtype := QType.save_jawaban, mapelId := mapelId,
         jawabanString := jawabanData.jawabanString }] }
    match net with
    | NetOutcome.ok => (true, st1)
    | NetOutcome.serverFail => (false, st1)
    | NetOutcome.netError => (false, st1)

/-- CacheManager.saveJawaban: write the record to the memory map, the
localStorage key, and the IndexedDB `jawaban` store (keyPath `id`), then
enqueue a `save_jawaban` sync-queue entry, then attempt an immediate
sync when online.  Returns the generated record id. -/
def saveJawaban (net : NetOutcome) (now : Nat) (st : CMState) (mapelId : Nat)
    (jawabanData : Payload) : String × CMState :=
  let jid := toString mapelId ++ "_" ++ toString now
  let data : JRecord := { id := jid, mapelId := mapelId, jawabanData := jawabanData,
                          timestamp := now, synced := false }
  let st1 := { st with jawabanMem := alSet mapelId data st.jawabanMem }
  let st2 := { st1 with lsJawaban := alSet mapelId jawabanData st1.lsJawaban }
  let st3 := { st2 with idbJawaban :=
      if st2.idbJawaban.any (fun r => r.id == jid) then
        st2.idbJawaban.map (fun r => if r.id == jid then data else r)
      else st2.idbJawaban ++ [data] }
  let st4 := addToSyncQueue now st3 QType.save_jawaban mapelId jawabanData
  let st5 := if st4.isOnline then (syncJawaban net st4 mapelId jawabanData).2 else st4
  (jid, st5)

/-- CacheManager.getJawaban: memory map, then localStorage, then the
IndexedDB `mapelId` index; purely local, no network access. -/
def getJawaban (st : CMState) (mapelId : Nat) : Option Payload :=
  match alGet mapelId st.jawabanMem with
  | some r => some r.jawabanData
  | none =>
    match alGet mapelId st.lsJawaban with
    | some p => some p
    | none =>
      match st.idbJawaban.find? (fun r => r.mapelId == mapelId) with
      | some r => some r.jawabanData
      | none => none

/-- CacheManager.clearExamCache: drop every cached artifact of one
subject from all tiers. -/
def clearExamCache (st : CMState) (mapelId : Nat) : CMState :=
  { st with soalMem := st.soalMem.filter (fun p => p.1 != mapelId),
            jawabanMem := st.jawabanMem.filter (fun p => p.1 != mapelId),
            lsSoal := st.lsSoal.filter (fun p => p.1 != mapelId),
            lsJawaban := st.lsJawaban.filter (fun p => p.1 != mapelId),
            idbSoal := st.idbSoal.filter (fun p => p.1 != mapelId),
            idbJawaban := st.idbJawaban.filter (fun r => r.mapelId != mapelId) }

/-- CacheManager.submitFinalExam: builds the request from
`this.cache.user.id` (a TypeError when no user is cached, modelled as
`Except.error`), rethrows a rejected fetch, returns the server result
otherwise, clearing the exam cache on `success: true`. -/
def submitFinalExam (net : NetOutcome) (st : CMState) (mapelId : Nat)
    (jawabanData : Payload) : Except Unit Bool × CMState :=
  match st.user with
  | none => (Except.error (), st)
  | some _ =>
    let st1 := { st with sent := st.sent ++
      [{ qtype := QType.finish_exam, mapelId := mapelId,
         jawabanString := jawabanData.jawabanString }] }
    match net with
    | NetOutcome.netError => (Except.error (), st1)
    | NetOutcome.ok => (Except.ok true, clearExamCache st1 mapelId)
    | NetOutcome.serverFail => (Except.ok false, st1)

/-- CacheManager.processQueueItem: dispatch one queue entry.
`syncJawaban`'s boolean result is discarded; only a thrown error
(possible for `finish_exam` alone) propagates. -/
def processQueueItem (deliver : QEntry → NetOutcome) (st : CMState) (item : QEntry) :
    Except Unit Unit × CMState :=
  match item.qtype with
  | QType.save_jawaban =>
    (Except.ok (), (syncJawaban (deliver item) st item.mapelId item.payload).2)
  | QType.finish_exam =>
    match submitFinalExam (deliver item) st item.mapelId item.payload with
    | (Except.ok _, st1) => (Except.ok (), st1)
    | (Except.error e, st1) => (Except.error e, st1)

/-- CacheManager.removeFromSyncQueue: delete the entry by key. -/
def removeFromSyncQueue (qid : Nat) (st : CMState) : CMState :=
  { st with syncQueue := st.syncQueue.filter (fun e => e.id != qid) }

/-- CacheManager.updateSyncQueueItem: `put` the entry back by key. -/
def updateSyncQueueItem (item : QEntry) (st : CMState) : CMState :=
  { st with syncQueue :=
      if st.syncQueue.any (fun e => e.id == item.id) then
        st.syncQueue.map (fun e => if e.id == item.id then item else e)
      else st.syncQueue ++ [item] }

/-- One iteration of the `processQueueItems` loop: on normal completion
the entry is removed from the queue, on a thrown error its attempt count
is bumped and it is re-persisted while under the ceiling of 3. -/
def processQueueStep (deliver : QEntry → NetOutcome) (st : CMState) (item : QEntry) : CMState :=
  match processQueueItem deliver st item with
  | (Except.ok _, st1) => removeFromSyncQueue item.id st1
  | (Except.error _, st1) =>
    let attempts := item.attempts + 1
    if attempts < 3 then updateSyncQueueItem { item with attempts := attempts } st1
    else st1

/-- CacheManager.processQueueItems: process the snapshot sequentially. -/
def processQueueItems (deliver : QEntry → NetOutcome) (items : List QEntry)
    (st : CMState) : CMState :=
  items.foldl (processQueueStep deliver) st

/-- CacheManager.processSyncQueue: snapshot the queue in `timestamp`
index order (ties resolved by the auto-increment primary key, as an
IndexedDB index cursor does) and hand it to `processQueueItems`. -/
def processSyncQueue (deliver : QEntry → NetOutcome) (st : CMState) : CMState :=
  processQueueItems deliver
    (insertionSort
      (fun a b => decide (a.timestamp < b.timestamp ∨ (a.timestamp = b.timestamp ∧ a.id ≤ b.id)))
      st.syncQueue)
    st

/-- Default question used with `List.getD`. -/
def defaultSoal : Soal := { id := 0, id_mapel := 0, no_soal := 0 }

/-- The request record one queue entry produces when delivered. -/
def reqOf (e : QEntry) : SentReq :=
  { qtype := e.qtype, mapelId := e.mapelId, jawabanString := e.payload.jawabanString }

/-! ## Concrete states used by witnesses and counterexamples -/

/-- Agenda 1 already has a (stale, one-row) mapping while its subject now
has two questions. -/
def dbC2 : Db :=
  { mata_pelajaran := [{ id := 10, id_agenda := 1, status_mapel := "Siap",
                         nama_mata_pelajaran := "MTK" }],
    bank_soal := [{ id := 100, id_mapel := 10, no_soal := 1 },
                  { id := 101, id_mapel := 10, no_soal := 2 }],
    soal_mapping_gabungan := [{ id_agenda := 1, id_mapel := 10, id_soal := 100,
                                no_soal_mapel := 1, no_urut_gabungan := 1 }],
    jawaban_gabungan := [] }

/-- Agenda 2 with a stale one-row mapping and two current questions. -/
def dbC3 : Db :=
  { mata_pelajaran := [{ id := 20, id_agenda := 2, status_mapel := "Siap",
                         nama_mata_pelajaran := "BIN" }],
    bank_soal := [{ id := 200, id_mapel := 20, no_soal := 1 },
                  { id := 201, id_mapel := 20, no_soal := 2 }],
    soal_mapping_gabungan := [{ id_agenda := 2, id_mapel := 20, id_soal := 200,
                                no_soal_mapel := 1, no_urut_gabungan := 1 }],
    jawaban_gabungan := [] }

/-- Agenda 4 with no mapping rows yet (fresh agenda, two questions). -/
def dbC3fresh : Db :=
  { mata_pelajaran := [{ id := 40, id_agenda := 4, status_mapel := "Siap",
                         nama_mata_pelajaran := "IPS" }],
    bank_soal := [{ id := 400, id_mapel := 40, no_soal := 1 },
                  { id := 401, id_mapel := 40, no_soal := 2 }],
    soal_mapping_gabungan := [],
    jawaban_gabungan := [] }

/-- Agenda 5 with no mapping rows yet (fresh agenda, two questions). -/
def dbC2fresh : Db :=
  { mata_pelajaran := [{ id := 50, id_agenda := 5, status_mapel := "Siap",
                         nama_mata_pelajaran := "ENG" }],
    bank_soal := [{ id := 500, id_mapel := 50, no_soal := 1 },
                  { id := 501, id_mapel := 50, no_soal := 2 }],
    soal_mapping_gabungan := [],
    jawaban_gabungan := [] }

/-- Agenda 3 whose subject 30 has one question and no mapping rows yet:
the state that sends `updateJawabanGabungan` into its regenerate-and-retry
branch. -/
def dbC6 : Db :=
  { mata_pelajaran := [{ id := 30, id_agenda := 3, status_mapel := "Siap",
                         nama_mata_pelajaran := "IPA" }],
    bank_soal := [{ id := 300, id_mapel := 30, no_soal := 1 }],
    soal_mapping_gabungan := [],
    jawaban_gabungan := [] }

/-- An online, logged-in client whose durable sync queue holds one
pending save-answer entry. -/
def stC7 : CMState :=
  { soalMem := [], lsSoal := [], idbSoal := [], jawabanMem := [], lsJawaban := [],
    idbJawaban := [],
    syncQueue := [{ id := 0, qtype := QType.save_jawaban, mapelId := 10,
                    payload := { jawabanString := "A|B" }, timestamp := 5, attempts := 0 }],
    nextQId := 1, sent := [], user := some 1, isOnline := true }

/-- An online, logged-in client whose queue holds a save-answer entry
followed by a finish-exam entry for the same subject. -/
def stC8 : CMState :=
  { soalMem := [], lsSoal := [], idbSoal := [], jawabanMem := [], lsJawaban := [],
    idbJawaban := [],
    syncQueue := [{ id := 0, qtype := QType.save_jawaban, mapelId := 4,
                    payload := { jawabanString := "X|-" }, timestamp := 9, attempts := 0 },
                  { id := 1, qtype := QType.finish_exam, mapelId := 4,
                    payload := { jawabanString := "X|Y" }, timestamp := 9, attempts := 0 }],
    nextQId := 2, sent := [], user := some 2, isOnline := true }

/-- An online, logged-in client with completely cold caches. -/
def stC9 : CMState :=
  { soalMem := [], lsSoal := [], idbSoal := [], jawabanMem := [], lsJawaban := [],
    idbJawaban := [], syncQueue := [], nextQId := 0, sent := [],
    user := some 3, isOnline := true }

/-- The example subject of claim C1: three questions with `no_soal`
1, 2, 3. -/
def c1soalList : List Soal :=
  [{ id := 100, id_mapel := 10, no_soal := 1 },
   { id := 101, id_mapel := 10, no_soal := 2 },
   { id := 102, id_mapel := 10, no_soal := 3 }]

/-- The example mapping of claim C1: the three questions sit at global
positions 5, 6, 7. -/
def c1mappingList : List MappingRow :=
  [{ id_agenda := 1, id_mapel := 10, id_soal := 100, no_soal_mapel := 1, no_urut_gabungan := 5 },
   { id_agenda := 1, id_mapel := 10, id_soal := 101, no_soal_mapel := 2, no_urut_gabungan := 6 },
   { id_agenda := 1, id_mapel := 10, id_soal := 102, no_soal_mapel := 3, no_urut_gabungan := 7 }]

/-- The mapping row of the i-th question in the C1 example. -/
def c1row (i : Nat) : MappingRow :=
  c1mappingList.getD i { id_agenda := 0, id_mapel := 0, id_soal := 0,
                         no_soal_mapel := 0, no_urut_gabungan := 0 }

/-- The integer-valued list `[s, s+1, ..., s+n-1]`, the shape of the
`no_urut_gabungan` values a fresh mapping computation assigns. -/
def intRange (s n : Nat) : List Int :=
  (List.range' s n).map (fun (k : Nat) => (k : Int))

/-! ## Helper lemmas -/

theorem alGet_cons [BEq κ] (k : κ) (p : κ × α) (l : List (κ × α)) :
    alGet k (p :: l) = if p.1 == k then some p.2 else alGet k l := by
  by_cases h : (p.1 == k) = true
  · simp [alGet, List.find?_cons_of_pos, h]
  · simp only [Bool.not_eq_true] at h
    simp [alGet, List.find?_cons_of_neg, h]

theorem alGet_alSet [BEq κ] [LawfulBEq κ] (k : κ) (v : α) (m : List (κ × α)) :
    alGet k (alSet k v m) = some v := by
  induction m with
  | nil => simp [alGet, alSet]
  | cons p rest ih =>
    by_cases hp : (p.1 == k) = true
    · simp [alSet, List.any_cons, hp, alGet_cons]
    · simp only [Bool.not_eq_true] at hp
      by_cases ha : (rest.any (fun q => q.1 == k)) = true
      · have halset : alSet k v (p :: rest)
            = p :: rest.map (fun q => if q.1 == k then (k, v) else q) := by
          simp [alSet, List.any_cons, hp, ha]
        have hrest : alSet k v rest
            = rest.map (fun q => if q.1 == k then (k, v) else q) := by
          simp [alSet, ha]
        rw [halset, alGet_cons]
        simp only [hp, Bool.false_eq_true, if_false]
        rw [← hrest]
        exact ih
      · simp only [Bool.not_eq_true] at ha
        have halset : alSet k v (p :: rest) = p :: (rest ++ [(k, v)]) := by
          simp [alSet, List.any_cons, hp, ha]
        have hrest : alSet k v rest = rest ++ [(k, v)] := by simp [alSet, ha]
        rw [halset, alGet_cons]
        simp only [hp, Bool.false_eq_true, if_false]
        rw [← hrest]
        exact ih

theorem syncJawaban_jawabanMem (net : NetOutcome) (st : CMState) (mapelId : Nat)
    (jd : Payload) : ((syncJawaban net st mapelId jd).2).jawabanMem = st.jawabanMem := by
  cases net <;> unfold syncJawaban <;> split <;> rfl

theorem syncJawaban_lsJawaban (net : NetOutcome) (st : CMState) (mapelId : Nat)
    (jd : Payload) : ((syncJawaban net st mapelId jd).2).lsJawaban = st.lsJawaban := by
  cases net <;> unfold syncJawaban <;> split <;> rfl

theorem saveJawaban_mem_get (net : NetOutcome) (now : Nat) (st : CMState) (mapelId : Nat)
    (jd : Payload) :
    alGet mapelId ((saveJawaban net now st mapelId jd).2).jawabanMem
      = some { id := toString mapelId ++ "_" ++ toString now, mapelId := mapelId,
               jawabanData := jd, timestamp := now, synced := false } := by
  unfold saveJawaban addToSyncQueue
  dsimp only
  by_cases ho : st.isOnline = true
  · rw [if_pos ho, syncJawaban_jawabanMem]
    exact alGet_alSet mapelId _ st.jawabanMem
  · rw [if_neg ho]
    exact alGet_alSet mapelId _ st.jawabanMem

/-- Claim C10: once `saveJawaban(mapelId, payload)` has completed, a
subsequent `getJawaban(mapelId)` returns exactly that payload from the
local tiers (here the in-memory map populated by the save), with no
network access — `getJawaban` touches no network at all — and
independently of `isOnline` and of the network outcome `net` of the
opportunistic immediate sync. -/
theorem c10_save_then_get (net : NetOutcome) (now : Nat) (st : CMState) (mapelId : Nat)
    (jd : Payload) :
    getJawaban (saveJawaban net now st mapelId jd).2 mapelId = some jd := by
  unfold getJawaban
  rw [saveJawaban_mem_get]

/-- Claim C7 (code-bug evidence): with one pending save-answer entry in
the durable sync queue and a delivery attempt that fails
(`syncJawaban` returns `false`), draining the queue still deletes the
entry: the queue ends empty, silently dropping the failed mutation. -/
theorem c7_failed_save_removed_from_queue :
    (syncJawaban NetOutcome.serverFail stC7 10 { jawabanString := "A|B" }).1 = false
    ∧ (processSyncQueue (fun _ => NetOutcome.serverFail) stC7).syncQueue = [] := by
  decide

theorem syncJawaban_state (net : NetOutcome) (st : CMState) (mapelId : Nat) (jd : Payload)
    (hON : st.isOnline = true) (hU : st.user.isSome = true) :
    (syncJawaban net st mapelId jd).2
      = { st with sent := st.sent ++ [{ qtype := QType.save_jawaban, mapelId := mapelId,
                                        jawabanString := jd.jawabanString }] } := by
  have hcond : (!st.isOnline || st.user.isNone) = false := by
    rw [hON]
    cases hu : st.user
    · rw [hu] at hU; simp at hU
    · simp
  unfold syncJawaban
  rw [hcond]
  cases net <;> simp

theorem processQueueStep_sent (deliver : QEntry → NetOutcome) (st : CMState) (item : QEntry)
    (hON : st.isOnline = true) (hU : st.user.isSome = true) :
    (processQueueStep deliver st item).sent = st.sent ++ [reqOf item]
    ∧ (processQueueStep deliver st item).isOnline = st.isOnline
    ∧ (processQueueStep deliver st item).user = st.user := by
  obtain ⟨u, hu⟩ := Option.isSome_iff_exists.mp hU
  cases hqt : item.qtype
  case save_jawaban =>
    have hsync := syncJawaban_state (deliver item) st item.mapelId item.payload hON hU
    simp [processQueueStep, processQueueItem, hqt, hsync, removeFromSyncQueue, reqOf]
  case finish_exam =>
    cases hnet : deliver item <;>
      simp only [processQueueStep, processQueueItem, hqt, submitFinalExam, hu, hnet] <;>
      first
      | (split <;>
          simp [removeFromSyncQueue, updateSyncQueueItem, clearExamCache, reqOf, hqt])
      | simp [removeFromSyncQueue, updateSyncQueueItem, clearExamCache, reqOf, hqt]

theorem processQueueItems_sent (deliver : QEntry → NetOutcome) (items : List QEntry) :
    ∀ st : CMState, st.isOnline = true → st.user.isSome = true →
      (processQueueItems deliver items st).sent = st.sent ++ items.map reqOf := by
  induction items with
  | nil => intro st _ _; simp [processQueueItems]
  | cons item rest ih =>
    intro st hON hU
    have hstep := processQueueStep_sent deliver st item hON hU
    show (processQueueItems deliver rest (processQueueStep deliver st item)).sent = _
    rw [ih _ (hstep.2.1.trans hON) (by rw [hstep.2.2]; exact hU), hstep.1]
    simp

theorem sortedInsert_eq_cons (le : α → α → Bool) (a : α) (l : List α)
    (h : ∀ b ∈ l, le a b = true) : sortedInsert le a l = a :: l := by
  cases l with
  | nil => rfl
  | cons b t =>
    unfold sortedInsert
    rw [h b (List.mem_cons_self b t)]
    simp

theorem insertionSort_eq_self (le : α → α → Bool) (l : List α)
    (h : l.Pairwise (fun a b => le a b = true)) : insertionSort le l = l := by
  induction l with
  | nil => rfl
  | cons a t ih =>
    rw [List.pairwise_cons] at h
    unfold insertionSort
    rw [ih h.2, sortedInsert_eq_cons le a t h.1]

/-- Claim C8: draining the durable sync queue issues the delivery
attempts in exactly queue order.  The queue snapshot is read through the
`timestamp` index (ties broken by the auto-increment key, which reflects
enqueue order), so when the stored queue is in enqueue order — timestamps
nondecreasing, ids increasing, as `addToSyncQueue` produces with a
monotone clock — the backend sees every entry's request in enqueue
order: a finish-exam enqueued after a save-answer for the same subject
is attempted strictly after it. -/
theorem c8_drain_preserves_enqueue_order (deliver : QEntry → NetOutcome) (st : CMState)
    (hsorted : st.syncQueue.Pairwise (fun a b =>
      a.timestamp < b.timestamp ∨ (a.timestamp = b.timestamp ∧ a.id ≤ b.id)))
    (hON : st.isOnline = true) (hU : st.user.isSome = true) :
    (processSyncQueue deliver st).sent = st.sent ++ st.syncQueue.map reqOf := by
  unfold processSyncQueue
  rw [insertionSort_eq_self _ _ (hsorted.imp (fun h => decide_eq_true h))]
  exact processQueueItems_sent deliver st.syncQueue st hON hU

/-- Witness for C8: on a queue holding a save-answer entry then a
finish-exam entry for subject 4, the drain's outbound requests are the
save-answer first, the finish-exam second. -/
theorem c8_drain_preserves_enqueue_order_witness :
    (processSyncQueue (fun _ => NetOutcome.ok) stC8).sent
      = [{ qtype := QType.save_jawaban, mapelId := 4, jawabanString := "X|-" },
         { qtype := QType.finish_exam, mapelId := 4, jawabanString := "X|Y" }] := by
  have h := c8_drain_preserves_enqueue_order (fun _ => NetOutcome.ok) stC8
    (by decide) (by decide) (by decide)
  simpa [stC8, reqOf] using h

/-- Claim C9: requesting a subject's question set once with all cache
tiers cold and then again returns the identical question-set response
both times (the warm read serves the very data the cold read cached),
and the warm call performs no network request (`apiGetSoal`'s network
flag is `false`, whatever the network oracle would answer). -/
theorem c9_cold_then_warm (st : CMState) (mapelId u : Nat) (resp : SoalData)
    (hmem : alGet mapelId st.soalMem = none)
    (hls : alGet mapelId st.lsSoal = none)
    (hidb : alGet mapelId st.idbSoal = none)
    (huser : st.user = some u)
    (hok : resp.success = true) :
    (apiGetSoal (some resp) st mapelId).1 = some (resp, false)
    ∧ (apiGetSoal (some resp) st mapelId).2.1 = true
    ∧ ∀ net2 : Option SoalData,
        apiGetSoal net2 (apiGetSoal (some resp) st mapelId).2.2 mapelId
          = (some (resp, true), false, (apiGetSoal (some resp) st mapelId).2.2) := by
  have hcold : cmGetSoal st mapelId = (none, st) := by
    unfold cmGetSoal
    rw [hmem, hls, hidb]
  have h1 : apiGetSoal (some resp) st mapelId
      = (some (resp, false), true,
         { st with soalMem := alSet mapelId resp st.soalMem,
                   lsSoal := alSet mapelId resp st.lsSoal,
                   idbSoal := alSet mapelId resp st.idbSoal }) := by
    unfold apiGetSoal
    rw [hcold]
    dsimp only
    rw [huser]
    dsimp only
    simp [hok]
  refine ⟨by rw [h1], by rw [h1], fun net2 => ?_⟩
  rw [h1]
  dsimp only
  have hwarm : cmGetSoal
      { st with soalMem := alSet mapelId resp st.soalMem,
                lsSoal := alSet mapelId resp st.lsSoal,
                idbSoal := alSet mapelId resp st.idbSoal } mapelId
      = (some (resp, Source.memory),
         { st with soalMem := alSet mapelId resp st.soalMem,
                   lsSoal := alSet mapelId resp st.lsSoal,
                   idbSoal := alSet mapelId resp st.idbSoal }) := by
    unfold cmGetSoal
    rw [show alGet mapelId (alSet mapelId resp st.soalMem) = some resp from alGet_alSet _ _ _]
  unfold apiGetSoal
  rw [hwarm]

/-- Witness for C9: a cold client fetches subject 5's questions from the
network once; the immediate warm re-read returns the identical response
with no network request. -/
theorem c9_cold_then_warm_witness :
    (apiGetSoal (some { success := true, data_soal := ["Q1", "Q2"] }) stC9 5).1
      = some ({ success := true, data_soal := ["Q1", "Q2"] }, false)
    ∧ apiGetSoal none (apiGetSoal (some { success := true, data_soal := ["Q1", "Q2"] }) stC9 5).2.2 5
      = (some (({ success := true, data_soal := ["Q1", "Q2"] } : SoalData), true), false,
         (apiGetSoal (some { success := true, data_soal := ["Q1", "Q2"] }) stC9 5).2.2) := by
  have h := c9_cold_then_warm stC9 5 3 { success := true, data_soal := ["Q1", "Q2"] }
    (by decide) (by decide) (by decide) (by decide) (by decide)
  exact ⟨h.1, h.2.2 none⟩

theorem soalFold_snd (aid mid : Nat) (soalList : List Soal) :
    ∀ acc : List MappingRow × Nat, (soalFold aid mid soalList acc).2 = acc.2 + soalList.length := by
  induction soalList with
  | nil => intro acc; simp [soalFold]
  | cons s rest ih =>
    intro acc
    show (soalFold aid mid rest (acc.1 ++ [mkMappingRow aid mid s acc.2], acc.2 + 1)).2 = _
    rw [ih]
    simp [Nat.add_assoc, Nat.add_comm 1 rest.length]

theorem intRange_succ (s n : Nat) :
    intRange s (n + 1) = ((s : Int)) :: intRange (s + 1) n := by
  unfold intRange
  rw [List.range'_succ]
  rfl

theorem intRange_append (s m n : Nat) :
    intRange s m ++ intRange (s + m) n = intRange s (m + n) := by
  unfold intRange
  rw [← List.map_append, List.range'_append_1, Nat.add_comm n m]

theorem soalFold_map_urut (aid mid : Nat) (soalList : List Soal) :
    ∀ acc : List MappingRow × Nat,
      (soalFold aid mid soalList acc).1.map (fun r => r.no_urut_gabungan)
        = acc.1.map (fun r => r.no_urut_gabungan) ++ intRange (acc.2 + 1) soalList.length := by
  induction soalList with
  | nil => intro acc; simp [soalFold, intRange]
  | cons s rest ih =>
    intro acc
    show (soalFold aid mid rest (acc.1 ++ [mkMappingRow aid mid s acc.2], acc.2 + 1)).1.map _ = _
    rw [ih]
    show _ = _ ++ intRange (acc.2 + 1) (rest.length + 1)
    rw [intRange_succ, List.map_append, List.append_assoc]
    have hcast : ((acc.2 + 1 : Nat) : Int) = (acc.2 : Int) + 1 := by push_cast; ring
    simp [mkMappingRow, hcast]

theorem soalFold_mem (aid mid : Nat) (soalList : List Soal) :
    ∀ (acc : List MappingRow × Nat) (r : MappingRow), r ∈ (soalFold aid mid soalList acc).1 →
      r ∈ acc.1 ∨ r.id_agenda = aid := by
  induction soalList with
  | nil =>
    intro acc r hr
    exact Or.inl (by simpa [soalFold] using hr)
  | cons s rest ih =>
    intro acc r hr
    rcases ih (acc.1 ++ [mkMappingRow aid mid s acc.2], acc.2 + 1) r hr with h | h
    · rcases List.mem_append.mp h with h2 | h2
      · exact Or.inl h2
      · right
        have h3 : r = mkMappingRow aid mid s acc.2 := by simpa using h2
        rw [h3]
        rfl
    · exact Or.inr h

theorem mapelFold_snd (db : Db) (aid : Nat) (ml : List Mapel) :
    ∀ acc : List MappingRow × Nat,
      (ml.foldl (fun acc mapel => soalFold aid mapel.id (getSoalList db mapel.id) acc) acc).2
        = acc.2 + (ml.map (fun m => (getSoalList db m.id).length)).sum := by
  induction ml with
  | nil => intro acc; simp
  | cons m rest ih =>
    intro acc
    rw [List.foldl_cons, ih, soalFold_snd]
    simp [Nat.add_assoc]

theorem mapelFold_map_urut (db : Db) (aid : Nat) (ml : List Mapel) :
    ∀ acc : List MappingRow × Nat,
      (ml.foldl (fun acc mapel => soalFold aid mapel.id (getSoalList db mapel.id) acc) acc).1.map
          (fun r => r.no_urut_gabungan)
        = acc.1.map (fun r => r.no_urut_gabungan)
          ++ intRange (acc.2 + 1) ((ml.map (fun m => (getSoalList db m.id).length)).sum) := by
  induction ml with
  | nil => intro acc; simp [intRange]
  | cons m rest ih =>
    intro acc
    rw [List.foldl_cons, ih, soalFold_map_urut, soalFold_snd, List.append_assoc,
      show acc.2 + (getSoalList db m.id).length + 1
          = acc.2 + 1 + (getSoalList db m.id).length from by omega,
      intRange_append]
    simp

theorem mapelFold_mem (db : Db) (aid : Nat) (ml : List Mapel) :
    ∀ (acc : List MappingRow × Nat) (r : MappingRow),
      r ∈ (ml.foldl (fun acc mapel => soalFold aid mapel.id (getSoalList db mapel.id) acc) acc).1 →
      r ∈ acc.1 ∨ r.id_agenda = aid := by
  induction ml with
  | nil => intro acc r hr; exact Or.inl (by simpa using hr)
  | cons m rest ih =>
    intro acc r hr
    rw [List.foldl_cons] at hr
    rcases ih _ r hr with h | h
    · exact soalFold_mem aid m.id (getSoalList db m.id) acc r h
    · exact Or.inr h

theorem computeMappings_total (db : Db) (aid : Nat) :
    (computeMappings db aid).2
      = ((getMapelList db aid).map (fun m => (getSoalList db m.id).length)).sum := by
  unfold computeMappings
  rw [mapelFold_snd]
  simp

theorem computeMappings_map_urut (db : Db) (aid : Nat) :
    (computeMappings db aid).1.map (fun r => r.no_urut_gabungan)
      = intRange 1 (computeMappings db aid).2 := by
  conv_lhs => unfold computeMappings
  rw [mapelFold_map_urut, computeMappings_total]
  simp

theorem computeMappings_mem_aid (db : Db) (aid : Nat) (r : MappingRow)
    (hr : r ∈ (computeMappings db aid).1) : r.id_agenda = aid := by
  unfold computeMappings at hr
  rcases mapelFold_mem db aid (getMapelList db aid) ([], 0) r hr with h | h
  · simp at h
  · exact h

theorem initMappingStep_fields (aid : Nat) (db : Db) :
    (initMappingStep aid db).mata_pelajaran = db.mata_pelajaran
    ∧ (initMappingStep aid db).bank_soal = db.bank_soal
    ∧ (initMappingStep aid db).jawaban_gabungan = db.jawaban_gabungan := by
  unfold initMappingStep
  dsimp only
  repeat' split
  all_goals exact ⟨rfl, rfl, rfl⟩

theorem initJGStep_fields (pid aid : Nat) (now ja : String) (ts : Nat) (db : Db) :
    (initJGStep pid aid now ja ts db).mata_pelajaran = db.mata_pelajaran
    ∧ (initJGStep pid aid now ja ts db).bank_soal = db.bank_soal
    ∧ (initJGStep pid aid now ja ts db).soal_mapping_gabungan = db.soal_mapping_gabungan := by
  unfold initJGStep
  repeat' split
  all_goals exact ⟨rfl, rfl, rfl⟩

theorem init_preserves_src (pid aid : Nat) (now : String) (db : Db) :
    ((initJawabanGabungan pid aid now db).2).mata_pelajaran = db.mata_pelajaran
    ∧ ((initJawabanGabungan pid aid now db).2).bank_soal = db.bank_soal := by
  unfold initJawabanGabungan
  dsimp only
  split
  · exact ⟨rfl, rfl⟩
  · constructor
    · rw [(initJGStep_fields _ _ _ _ _ _).1, (initMappingStep_fields _ _).1]
    · rw [(initJGStep_fields _ _ _ _ _ _).2.1, (initMappingStep_fields _ _).2.1]

theorem computeMappings_congr (db db' : Db) (aid : Nat)
    (h1 : db'.mata_pelajaran = db.mata_pelajaran) (h2 : db'.bank_soal = db.bank_soal) :
    computeMappings db' aid = computeMappings db aid := by
  unfold computeMappings getMapelList getSoalList
  rw [h1, h2]

theorem getMapelList_congr (db db' : Db) (aid : Nat)
    (h1 : db'.mata_pelajaran = db.mata_pelajaran) :
    getMapelList db' aid = getMapelList db aid := by
  unfold getMapelList
  rw [h1]

/-- Claim C4: for a fixed data-store state, the global-sequence
assignment `initJawabanGabungan` computes is a pure function of the
subject and question tables, and the call leaves those tables untouched,
so a second invocation — run on the state the first one produced —
computes exactly the same assignment: every (subject, question) pair
receives the same `no_urut_gabungan` in both runs. -/
theorem c4_deterministic_assignment (pid aid : Nat) (now : String) (db : Db) :
    computeMappings ((initJawabanGabungan pid aid now db).2) aid = computeMappings db aid :=
  computeMappings_congr db _ aid (init_preserves_src pid aid now db).1
    (init_preserves_src pid aid now db).2

theorem initMappingStep_of_empty (aid : Nat) (db : Db)
    (h : ((computeMappings db aid).1).isEmpty = true) : initMappingStep aid db = db := by
  unfold initMappingStep
  dsimp only
  rw [if_pos h]

theorem initMappingStep_of_present (aid : Nat) (db : Db)
    (h : (db.soal_mapping_gabungan.filter (fun r => r.id_agenda == aid)).isEmpty = false) :
    initMappingStep aid db = db := by
  unfold initMappingStep
  dsimp only
  split
  · rfl
  · rw [if_neg (by simp [h])]

theorem initMappingStep_of_fresh (aid : Nat) (db : Db)
    (hcm : ((computeMappings db aid).1).isEmpty = false)
    (hflt : (db.soal_mapping_gabungan.filter (fun r => r.id_agenda == aid)).isEmpty = true) :
    initMappingStep aid db
      = { db with soal_mapping_gabungan :=
            db.soal_mapping_gabungan ++ (computeMappings db aid).1 } := by
  unfold initMappingStep
  dsimp only
  rw [if_neg (by simp [hcm]), if_pos hflt]

theorem initJGStep_of_absent (pid aid : Nat) (now ja : String) (ts : Nat) (db : Db)
    (h : (db.jawaban_gabungan.filter
        (fun j => j.id_peserta == pid && j.id_agenda == aid)).isEmpty = true) :
    initJGStep pid aid now ja ts db
      = { db with jawaban_gabungan := db.jawaban_gabungan ++
            [{ id_peserta := pid, id_agenda := aid, jawaban := ja,
               total_soal := ts, tgljam_update := now }] } := by
  unfold initJGStep
  rw [if_pos h]

theorem initJGStep_of_present (pid aid : Nat) (now ja : String) (ts : Nat) (db : Db)
    (h : (db.jawaban_gabungan.filter
        (fun j => j.id_peserta == pid && j.id_agenda == aid)).isEmpty = false) :
    initJGStep pid aid now ja ts db = db := by
  unfold initJGStep
  rw [if_neg (by simp [h])]

theorem init_snd_of_no_mapel (pid aid : Nat) (now : String) (s : Db)
    (h : (getMapelList s aid).isEmpty = true) :
    (initJawabanGabungan pid aid now s).2 = s := by
  unfold initJawabanGabungan
  dsimp only
  rw [if_pos h]

theorem computeMappings_filter_self (db : Db) (aid : Nat) :
    (computeMappings db aid).1.filter (fun r => r.id_agenda == aid)
      = (computeMappings db aid).1 :=
  List.filter_eq_self.mpr (fun r hr => by simp [computeMappings_mem_aid db aid r hr])

theorem init_jg_filter_nonempty (pid aid : Nat) (now : String) (db : Db)
    (h : (getMapelList db aid).isEmpty = false) :
    (((initJawabanGabungan pid aid now db).2).jawaban_gabungan.filter
        (fun j => j.id_peserta == pid && j.id_agenda == aid)).isEmpty = false := by
  unfold initJawabanGabungan
  dsimp only
  rw [if_neg (by simp [h])]
  dsimp only
  by_cases hjg : ((initMappingStep aid db).jawaban_gabungan.filter
      (fun j => j.id_peserta == pid && j.id_agenda == aid)).isEmpty = true
  · rw [initJGStep_of_absent _ _ _ _ _ _ hjg]
    dsimp only
    rw [List.filter_append, List.isEmpty_iff.mp hjg]
    simp
  · rw [initJGStep_of_present _ _ _ _ _ _ (by simpa using hjg)]
    simpa using hjg

theorem init_mapping_filter_nonempty (pid aid : Nat) (now : String) (db : Db)
    (h : (getMapelList db aid).isEmpty = false)
    (hcm : ((computeMappings db aid).1).isEmpty = false) :
    (((initJawabanGabungan pid aid now db).2).soal_mapping_gabungan.filter
        (fun r => r.id_agenda == aid)).isEmpty = false := by
  unfold initJawabanGabungan
  dsimp only
  rw [if_neg (by simp [h])]
  dsimp only
  rw [(initJGStep_fields _ _ _ _ _ _).2.2]
  by_cases hflt : (db.soal_mapping_gabungan.filter (fun r => r.id_agenda == aid)).isEmpty = true
  · rw [initMappingStep_of_fresh aid db hcm hflt]
    dsimp only
    rw [List.filter_append, List.isEmpty_iff.mp hflt, List.nil_append,
      computeMappings_filter_self]
    exact hcm
  · rw [initMappingStep_of_present aid db (by simpa using hflt)]
    simpa using hflt

theorem init_snd_noop (pid aid : Nat) (now : String) (s : Db)
    (hjg : (s.jawaban_gabungan.filter
        (fun j => j.id_peserta == pid && j.id_agenda == aid)).isEmpty = false)
    (hmap : ((computeMappings s aid).1).isEmpty = false →
      (s.soal_mapping_gabungan.filter (fun r => r.id_agenda == aid)).isEmpty = false) :
    (initJawabanGabungan pid aid now s).2 = s := by
  unfold initJawabanGabungan
  dsimp only
  split
  · rfl
  · have h1 : initMappingStep aid s = s := by
      by_cases hcm : ((computeMappings s aid).1).isEmpty = true
      · exact initMappingStep_of_empty aid s hcm
      · exact initMappingStep_of_present aid s (hmap (by simpa using hcm))
    rw [h1, initJGStep_of_present _ _ _ _ _ _ hjg]

/-- Claim C5: for every (participant, agenda), calling
`initJawabanGabungan` twice in a row with no intervening data changes
leaves the database — in particular the CombinedAnswer row — exactly as
it was after the first call: the second call inserts no mapping rows, no
combined-answer row, and modifies neither (for any pair of call
timestamps). -/
theorem c5_ensure_initialized_idempotent (pid aid : Nat) (t1 t2 : String) (db : Db) :
    (initJawabanGabungan pid aid t2 (initJawabanGabungan pid aid t1 db).2).2
      = (initJawabanGabungan pid aid t1 db).2 := by
  by_cases hm : (getMapelList db aid).isEmpty = true
  · exact init_snd_of_no_mapel pid aid t2 _
      (by rw [getMapelList_congr db _ aid (init_preserves_src pid aid t1 db).1]; exact hm)
  · have hmf : (getMapelList db aid).isEmpty = false := by simpa using hm
    refine init_snd_noop pid aid t2 _ (init_jg_filter_nonempty pid aid t1 db hmf) ?_
    intro hcm
    rw [computeMappings_congr db _ aid (init_preserves_src pid aid t1 db).1
      (init_preserves_src pid aid t1 db).2] at hcm
    exact init_mapping_filter_nonempty pid aid t1 db hmf hcm

/-- Counterexample to claim C2 as stated: when agenda 1 already has a
(stale) mapping row, `initJawabanGabungan` does not replace it — the
stored mapping for the agenda after the call differs from the freshly
computed assignment (the function has no delete and skips the insert on
an existing mapping). -/
theorem c2_counterexample :
    ¬ ((((initJawabanGabungan 7 1 "t" dbC2).2).soal_mapping_gabungan.filter
          (fun r => r.id_agenda == 1)) = (computeMappings dbC2 1).1) := by
  decide

/-- Claim C2 (amended): `initJawabanGabungan` never deletes mapping
rows; it bulk-inserts the freshly computed rows only when the agenda has
no mapping rows at all, and when a mapping for the agenda already exists
it leaves the stored mapping table completely unchanged. -/
theorem c2_amended_insert_only_when_absent (pid aid : Nat) (now : String) (db : Db) :
    ((db.soal_mapping_gabungan.filter (fun r => r.id_agenda == aid)).isEmpty = false →
      ((initJawabanGabungan pid aid now db).2).soal_mapping_gabungan
        = db.soal_mapping_gabungan)
    ∧ ((db.soal_mapping_gabungan.filter (fun r => r.id_agenda == aid)).isEmpty = true →
      (getMapelList db aid).isEmpty = false →
      ((computeMappings db aid).1).isEmpty = false →
      ((initJawabanGabungan pid aid now db).2).soal_mapping_gabungan
        = db.soal_mapping_gabungan ++ (computeMappings db aid).1) := by
  constructor
  · intro h
    unfold initJawabanGabungan
    dsimp only
    split
    · rfl
    · rw [(initJGStep_fields _ _ _ _ _ _).2.2, initMappingStep_of_present aid db h]
  · intro hflt hm hcm
    unfold initJawabanGabungan
    dsimp only
    rw [if_neg (by simp [hm])]
    dsimp only
    rw [(initJGStep_fields _ _ _ _ _ _).2.2, initMappingStep_of_fresh aid db hcm hflt]

/-- Witness for the amended C2: on agenda 1 (mapping already present)
the stored mapping is untouched; on fresh agenda 5 the freshly computed
rows are appended. -/
theorem c2_amended_insert_only_when_absent_witness :
    ((initJawabanGabungan 7 1 "t" dbC2).2).soal_mapping_gabungan
        = dbC2.soal_mapping_gabungan
    ∧ ((initJawabanGabungan 8 5 "u" dbC2fresh).2).soal_mapping_gabungan
        = dbC2fresh.soal_mapping_gabungan ++ (computeMappings dbC2fresh 5).1 :=
  ⟨(c2_amended_insert_only_when_absent 7 1 "t" dbC2).1 (by decide),
   (c2_amended_insert_only_when_absent 8 5 "u" dbC2fresh).2 (by decide) (by decide) (by decide)⟩

/-- Counterexample to claim C3 as stated: agenda 2's ready subject has 2
questions (`totalQuestions = 2`), but after `initJawabanGabungan` the
stored mapping rows for the agenda (a stale pre-existing mapping the
call does not replace) do not carry global sequence number 2, so the set
of `no_urut_gabungan` values is not `{1, ..., totalQuestions}`. -/
theorem c3_counterexample :
    (computeMappings dbC3 2).2 = 2
    ∧ ¬ ((2 : Int) ∈ (((initJawabanGabungan 9 2 "t" dbC3).2).soal_mapping_gabungan.filter
          (fun r => r.id_agenda == 2)).map (fun r => r.no_urut_gabungan)) := by
  decide

/-- Claim C3 (amended): when the agenda had no mapping rows before the
call, after `initJawabanGabungan` the stored mapping rows for the agenda
are exactly the freshly computed assignment, whose `no_urut_gabungan`
values are exactly `1, ..., totalQuestions` in assignment order — dense,
1-based, no gaps, no duplicates — where `totalQuestions` is the total
question count over the agenda's ready subjects (subjects iterated by
ascending id, questions by ascending `no_soal`). -/
theorem c3_amended_dense_coverage (pid aid : Nat) (now : String) (db : Db)
    (hpre : db.soal_mapping_gabungan.filter (fun r => r.id_agenda == aid) = []) :
    (((initJawabanGabungan pid aid now db).2).soal_mapping_gabungan.filter
        (fun r => r.id_agenda == aid)) = (computeMappings db aid).1
    ∧ (computeMappings db aid).1.map (fun r => r.no_urut_gabungan)
        = intRange 1 (computeMappings db aid).2
    ∧ (computeMappings db aid).2
        = ((getMapelList db aid).map (fun m => (getSoalList db m.id).length)).sum := by
  refine ⟨?_, computeMappings_map_urut db aid, computeMappings_total db aid⟩
  unfold initJawabanGabungan
  dsimp only
  split
  · rename_i hmap
    have hnil : getMapelList db aid = [] := List.isEmpty_iff.mp hmap
    have hc : computeMappings db aid = ([], 0) := by
      unfold computeMappings
      rw [hnil]
      rfl
    rw [hpre, hc]
  · rw [(initJGStep_fields _ _ _ _ _ _).2.2]
    by_cases hcm : ((computeMappings db aid).1).isEmpty = true
    · rw [initMappingStep_of_empty aid db hcm, hpre, List.isEmpty_iff.mp hcm]
    · rw [initMappingStep_of_fresh aid db (by simpa using hcm) (by rw [hpre]; rfl)]
      dsimp only
      rw [List.filter_append, hpre, List.nil_append, computeMappings_filter_self]

/-- Witness for the amended C3: on fresh agenda 4 the stored rows equal
the fresh assignment and its global numbers are exactly `[1, 2]`. -/
theorem c3_amended_dense_coverage_witness :
    (((initJawabanGabungan 8 4 "u" dbC3fresh).2).soal_mapping_gabungan.filter
        (fun r => r.id_agenda == 4)) = (computeMappings dbC3fresh 4).1
    ∧ (computeMappings dbC3fresh 4).1.map (fun r => r.no_urut_gabungan)
        = intRange 1 (computeMappings dbC3fresh 4).2 := by
  have h := c3_amended_dense_coverage 8 4 "u" dbC3fresh (by decide)
  exact ⟨h.1, h.2.1⟩

theorem getD_set_ne (l : List α) (i p : Nat) (a d : α) (h : i ≠ p) :
    (l.set i a).getD p d = l.getD p d := by
  simp [List.getD_eq_getElem?_getD, List.getElem?_set_ne h]

theorem getD_set_self (l : List α) (i : Nat) (a d : α) (h : i < l.length) :
    (l.set i a).getD i d = a := by
  simp [List.getD_eq_getElem?_getD, List.getElem?_set_self h]

theorem getD_tail (l : List α) (n : Nat) (d : α) : l.tail.getD n d = l.getD (n + 1) d := by
  cases l <;> rfl

theorem headD_eq_getD (l : List α) (d : α) : l.headD d = l.getD 0 d := by
  cases l <;> rfl

theorem updateLoop_cons (ml : List MappingRow) (s : Soal) (rest : List Soal)
    (tokens arr : List String) :
    updateLoop ml (s :: rest) tokens arr
      = updateLoop ml rest tokens.tail
          (match ml.find? (fun m => m.id_soal == s.id) with
           | some mapping =>
             if 0 ≤ mapping.no_urut_gabungan - 1
                ∧ mapping.no_urut_gabungan - 1 < (arr.length : Int) then
               arr.set (mapping.no_urut_gabungan - 1).toNat (tokens.headD "-")
             else arr
           | none => arr) := rfl

theorem updateLoop_length (ml : List MappingRow) :
    ∀ (sl : List Soal) (tokens arr : List String),
      (updateLoop ml sl tokens arr).length = arr.length := by
  intro sl
  induction sl with
  | nil => intro tokens arr; rfl
  | cons s rest ih =>
    intro tokens arr
    rw [updateLoop_cons]
    cases hf : ml.find? (fun m => m.id_soal == s.id) with
    | none => exact ih tokens.tail arr
    | some mapping =>
      dsimp only
      split
      · rw [ih]
        exact List.length_set arr _ _
      · exact ih tokens.tail arr

theorem updateLoop_not_written (ml : List MappingRow) :
    ∀ (sl : List Soal) (tokens arr : List String) (p : Nat) (d : String),
      (∀ s ∈ sl, ∀ r, ml.find? (fun m => m.id_soal == s.id) = some r →
        1 ≤ r.no_urut_gabungan → (r.no_urut_gabungan - 1).toNat ≠ p) →
      (updateLoop ml sl tokens arr).getD p d = arr.getD p d := by
  intro sl
  induction sl with
  | nil => intro tokens arr p d _; rfl
  | cons s rest ih =>
    intro tokens arr p d h
    rw [updateLoop_cons]
    cases hf : ml.find? (fun m => m.id_soal == s.id) with
    | none => exact ih tokens.tail arr p d (fun s' hs' => h s' (List.mem_cons_of_mem _ hs'))
    | some mapping =>
      dsimp only
      split
      · rename_i hcond
        rw [ih _ _ p d (fun s' hs' => h s' (List.mem_cons_of_mem _ hs'))]
        exact getD_set_ne arr _ p _ d
          (h s (List.mem_cons_self s rest) mapping hf (by omega))
      · exact ih _ _ p d (fun s' hs' => h s' (List.mem_cons_of_mem _ hs'))

theorem updateLoop_written (ml : List MappingRow) :
    ∀ (sl : List Soal) (tokens arr : List String) (i : Nat) (r : MappingRow),
      i < sl.length →
      ml.find? (fun m => m.id_soal == (sl.getD i defaultSoal).id) = some r →
      1 ≤ r.no_urut_gabungan →
      r.no_urut_gabungan ≤ (arr.length : Int) →
      (∀ j, j < sl.length → i < j → ∀ r2,
        ml.find? (fun m => m.id_soal == (sl.getD j defaultSoal).id) = some r2 →
        1 ≤ r2.no_urut_gabungan →
        (r2.no_urut_gabungan - 1).toNat ≠ (r.no_urut_gabungan - 1).toNat) →
      (updateLoop ml sl tokens arr).getD (r.no_urut_gabungan - 1).toNat ""
        = tokens.getD i "-" := by
  intro sl
  induction sl with
  | nil => intro tokens arr i r hi; simp at hi
  | cons s rest ih =>
    intro tokens arr i r hi hf hlo hhi hlater
    rw [updateLoop_cons]
    cases i with
    | zero =>
      rw [List.getD_cons_zero] at hf
      rw [hf]
      dsimp only
      rw [if_pos ⟨by omega, by omega⟩]
      rw [updateLoop_not_written ml rest tokens.tail _ _ "" ?hnw]
      case hnw =>
        intro s' hs' r2 hf2 hlo2
        obtain ⟨j, hj, hjs⟩ := List.mem_iff_getElem.mp hs'
        have hgd : rest.getD j defaultSoal = s' := by
          rw [List.getD_eq_getElem _ _ hj]
          exact hjs
        refine hlater (j + 1) (by simp only [List.length_cons]; omega)
          (Nat.succ_pos j) r2 ?_ hlo2
        rw [List.getD_cons_succ, hgd]
        exact hf2
      rw [getD_set_self arr _ _ "" (by omega), headD_eq_getD]
    | succ i' =>
      have hi' : i' < rest.length := by simp only [List.length_cons] at hi; omega
      have hf' : ml.find? (fun m => m.id_soal == (rest.getD i' defaultSoal).id) = some r := by
        rw [List.getD_cons_succ] at hf
        exact hf
      have hlater' : ∀ j, j < rest.length → i' < j → ∀ r2,
          ml.find? (fun m => m.id_soal == (rest.getD j defaultSoal).id) = some r2 →
          1 ≤ r2.no_urut_gabungan →
          (r2.no_urut_gabungan - 1).toNat ≠ (r.no_urut_gabungan - 1).toNat := by
        intro j hj hij r2 hf2 hlo2
        refine hlater (j + 1) (by simp only [List.length_cons]; omega) (by omega) r2 ?_ hlo2
        rw [List.getD_cons_succ]
        exact hf2
      rw [← getD_tail tokens i' "-"]
      cases hfh : ml.find? (fun m => m.id_soal == s.id) with
      | none => exact ih tokens.tail arr i' r hi' hf' hlo hhi hlater'
      | some mapping =>
        dsimp only
        split
        · refine ih tokens.tail _ i' r hi' hf' hlo ?_ hlater'
          rw [List.length_set]
          exact hhi
        · exact ih tokens.tail arr i' r hi' hf' hlo hhi hlater'

/-- Claim C1: in `updateJawabanGabungan`'s write step, with a mapping
row present for every question of the subject (`row i` found by question
id, global numbers 1-based, within the combined string's token count,
pairwise distinct), the i-th question in ascending `no_soal` order
receives the i-th `|`-token of the subject answer string (`-` when the
string has fewer than i+1 tokens) at token index
`no_urut_gabungan - 1` of the combined answer, every position not
belonging to one of the subject's questions is left unchanged, and the
token count of the combined answer is preserved. -/
theorem c1_apply_subject_answers (mappingList : List MappingRow) (soalList : List Soal)
    (jawabanMapelString : String) (arr : List String) (row : Nat → MappingRow)
    (hfind : ∀ i, i < soalList.length →
      mappingList.find? (fun m => m.id_soal == (soalList.getD i defaultSoal).id)
        = some (row i))
    (hlo : ∀ i, i < soalList.length → 1 ≤ (row i).no_urut_gabungan)
    (hhi : ∀ i, i < soalList.length → (row i).no_urut_gabungan ≤ (arr.length : Int))
    (hinj : ∀ i, i < soalList.length → ∀ j, j < soalList.length → i ≠ j →
      (row i).no_urut_gabungan ≠ (row j).no_urut_gabungan) :
    (updateLoop mappingList soalList (jsSplit jawabanMapelString '|') arr).length = arr.length
    ∧ (∀ i, i < soalList.length →
        (updateLoop mappingList soalList (jsSplit jawabanMapelString '|') arr).getD
            ((row i).no_urut_gabungan - 1).toNat ""
          = (jsSplit jawabanMapelString '|').getD i "-")
    ∧ (∀ p, p < arr.length →
        (∀ i, i < soalList.length → ((row i).no_urut_gabungan - 1).toNat ≠ p) →
        (updateLoop mappingList soalList (jsSplit jawabanMapelString '|') arr).getD p ""
          = arr.getD p "") := by
  refine ⟨updateLoop_length mappingList soalList _ arr, ?_, ?_⟩
  · intro i hi
    refine updateLoop_written mappingList soalList _ arr i (row i) hi (hfind i hi)
      (hlo i hi) (hhi i hi) ?_
    intro j hj hij r2 hf2 hlo2
    have hr2 : r2 = row j := by
      have h2 : some (row j) = some r2 := (hfind j hj).symm.trans hf2
      exact (Option.some.inj h2).symm
    subst hr2
    have hne := hinj i hi j hj (by omega)
    have hloi := hlo i hi
    have hloj := hlo j hj
    omega
  · intro p hp hnone
    apply updateLoop_not_written
    intro s hs r2 hf2 hlo2
    obtain ⟨k, hk, hks⟩ := List.mem_iff_getElem.mp hs
    have hgd : soalList.getD k defaultSoal = s := by
      rw [List.getD_eq_getElem _ _ hk]
      exact hks
    have hr2 : r2 = row k := by
      have hfk := hfind k hk
      rw [hgd] at hfk
      exact (Option.some.inj (hfk.symm.trans hf2)).symm
    rw [hr2]
    exact hnone k hk

/-- Witness for C1: a subject with 3 questions at global positions
{5, 6, 7} and answer string `"A|-|C"` writes `'A'`, `'-'`, `'C'` into
token indices 4, 5, 6 of an 8-token combined answer and leaves index 0
unchanged. -/
theorem c1_apply_subject_answers_witness :
    (updateLoop c1mappingList c1soalList (jsSplit "A|-|C" '|') (List.replicate 8 "-")).getD 4 ""
      = "A"
    ∧ (updateLoop c1mappingList c1soalList (jsSplit "A|-|C" '|') (List.replicate 8 "-")).getD 5 ""
      = "-"
    ∧ (updateLoop c1mappingList c1soalList (jsSplit "A|-|C" '|') (List.replicate 8 "-")).getD 6 ""
      = "C"
    ∧ (updateLoop c1mappingList c1soalList (jsSplit "A|-|C" '|') (List.replicate 8 "-")).getD 0 ""
      = "-" := by
  have h := c1_apply_subject_answers c1mappingList c1soalList "A|-|C" (List.replicate 8 "-")
    c1row (by decide) (by decide) (by decide) (by decide)
  exact ⟨h.2.1 0 (by decide), h.2.1 1 (by decide), h.2.1 2 (by decide),
    h.2.2 0 (by decide) (by decide)⟩

/-- Claim C6 (code-bug evidence): with the mapping rows for
(agenda 3, subject 30) absent, `updateJawabanGabungan` does regenerate
the mapping (one row exists afterwards, so the single question is
resolvable), but the retry then re-assigns a `const` binding — a
TypeError — so the whole save aborts: it returns `false` and the
combined answer string stays `"-"` instead of receiving the answer
`"A"`. -/
theorem c6_retry_aborts_instead_of_consolidating :
    (updateJawabanGabungan 7 3 30 "A" "t" dbC6).1 = false
    ∧ ((updateJawabanGabungan 7 3 30 "A" "t" dbC6).2.jawaban_gabungan.map
        (fun j => j.jawaban)) = ["-"]
    ∧ (getMappingList (updateJawabanGabungan 7 3 30 "A" "t" dbC6).2 3 30).length = 1 := by
  decide
